import Mathlib

/-!
Verification development for the park-and-ride booking core.

The definitions below are a shallow embedding of the repository code:

* `src/server/storage.ts` — `MemStorage` (in-memory `Map`s, modelled as
  insertion-ordered lists keyed by the `id` field) and the
  `DatabaseStorage.getAvailableParkingSpots` query.
* `src/unnamed/part_000` — the Express route handlers
  `POST /api/bookings`, `PATCH /api/bookings/:id`,
  `DELETE /api/bookings/:id`.

Modelling conventions:

* Timestamps are milliseconds since the epoch, as `Int` (JS `Date.getTime`).
* Money (`hourlyRate`, `totalAmount`) is `Rat`; the concrete values in the
  repository (5, 4.5, 1.5, …) are exact in both binary floating point and
  in `Rat`, so the embedding is faithful on every value the claims touch.
* `ParkingSpot.isAvailable` is `Option Bool`: the drizzle column is a
  nullable boolean, `MemStorage.createParkingSpot` stores
  `insertSpot.isAvailable ?? null`, and the resolver filter
  `spot => spot.isAvailable` keeps exactly the spots whose value is `true`
  (JS truthiness: `null` and `false` are both falsy).
* Fields never read by the booking core or the claims are elided from the
  records: display fields of locations and spots (name, address,
  coordinates, rating, spotNumber, level, section, spotType, totalSpots),
  and `createdAt` / `isFavorite` of bookings (wall-clock timestamp and a
  UI flag).
* `bookingCode` is produced by `crypto.randomBytes` in the source; the
  generated string is threaded in as an input of the request, since no
  logic reads it back.
* The zod `insertParkingBookingSchema.parse` call on already well-typed
  data is the identity and is not represented.
-/

/-- A parking location (storage.ts / shared/schema.ts `parkingLocations`).
Only the fields read by the booking core are kept: the generated `id` and
`hourlyRate` used by the fare computation. -/
structure ParkingLocation where
  id : Nat
  hourlyRate : Rat
deriving Repr, DecidableEq

/-- A parking spot (shared/schema.ts `parkingSpots`). `isAvailable` is a
nullable boolean column; `none` models SQL/JS `null`. -/
structure ParkingSpot where
  id : Nat
  locationId : Nat
  isAvailable : Option Bool
deriving Repr, DecidableEq

/-- A parking booking (shared/schema.ts `parkingBookings`). `startTime` and
`endTime` are epoch milliseconds; `status` is the raw status string
(`pending`, `confirmed`, `canceled`, `completed` per the schema comment,
though nothing in the code restricts it). -/
structure ParkingBooking where
  id : Nat
  userId : Nat
  vehicleId : Nat
  spotId : Nat
  locationId : Nat
  startTime : Int
  endTime : Int
  status : String
  bookingCode : String
  totalAmount : Rat
deriving Repr, DecidableEq

/-- The mutable state of `MemStorage`: the three entity tables relevant to
the booking core plus the per-entity id counters (`currentLocationIds`,
`currentSpotIds`, `currentBookingIds`). JS `Map`s iterate in insertion
order and `Map.set` on an existing key keeps its position, so each table is
an insertion-ordered list and in-place updates are `List.map`. -/
structure Store where
  parkingLocations : List ParkingLocation
  parkingSpots : List ParkingSpot
  parkingBookings : List ParkingBooking
  currentLocationIds : Nat
  currentSpotIds : Nat
  currentBookingIds : Nat
deriving Repr, DecidableEq

/-- The store at process start, before any entity is created (the
`MemStorage` constructor: empty maps, every counter at 1). -/
def emptyStore : Store :=
  { parkingLocations := []
    parkingSpots := []
    parkingBookings := []
    currentLocationIds := 1
    currentSpotIds := 1
    currentBookingIds := 1 }

/-- Fields of `InsertParkingLocation` read by the core. -/
structure InsertLocation where
  hourlyRate : Rat
deriving Repr, DecidableEq

/-- Fields of `InsertParkingSpot` read by the core. -/
structure InsertSpot where
  locationId : Nat
  isAvailable : Option Bool
deriving Repr, DecidableEq

/-- MemStorage.createParkingLocation: assign `id := currentLocationIds++`,
insert at the end of the table. -/
def createParkingLocation (s : Store) (l : InsertLocation) :
    ParkingLocation × Store :=
  let location : ParkingLocation := { id := s.currentLocationIds, hourlyRate := l.hourlyRate }
  (location,
    { s with
      parkingLocations := s.parkingLocations ++ [location]
      currentLocationIds := s.currentLocationIds + 1 })

/-- MemStorage.createParkingSpot: assign `id := currentSpotIds++`, store
`isAvailable ?? null` (the provided nullable value), insert at the end. -/
def createParkingSpot (s : Store) (sp : InsertSpot) : ParkingSpot × Store :=
  let spot : ParkingSpot :=
    { id := s.currentSpotIds, locationId := sp.locationId, isAvailable := sp.isAvailable }
  (spot,
    { s with
      parkingSpots := s.parkingSpots ++ [spot]
      currentSpotIds := s.currentSpotIds + 1 })

/-- MemStorage.getParkingLocationById: `Map.get`, i.e. lookup by the id key. -/
def getParkingLocationById (s : Store) (id : Nat) : Option ParkingLocation :=
  s.parkingLocations.find? (fun l => l.id == id)

/-- MemStorage.getParkingBookingById: `Map.get`. -/
def getParkingBookingById (s : Store) (id : Nat) : Option ParkingBooking :=
  s.parkingBookings.find? (fun b => b.id == id)

/-- MemStorage.getParkingSpotsByLocationId: filter the spot table by
`spot.locationId === locationId`. -/
def getParkingSpotsByLocationId (s : Store) (locationId : Nat) : List ParkingSpot :=
  s.parkingSpots.filter (fun spot => spot.locationId == locationId)

/-- MemStorage.getAvailableParkingSpots, line for line:
1. all spots of the location;
2. pre-filter by the cached `isAvailable` flag (truthy test);
3. bookings of the location whose status is not `canceled`/`completed`;
4. drop every spot having such a booking with
   `booking.startTime <= endTime && booking.endTime >= startTime`. -/
def getAvailableParkingSpots (s : Store) (locationId : Nat)
    (startTime endTime : Int) : List ParkingSpot :=
  let locationSpots := getParkingSpotsByLocationId s locationId
  let availableSpots := locationSpots.filter (fun spot => spot.isAvailable == some true)
  let bookings := s.parkingBookings.filter (fun booking =>
    booking.locationId == locationId &&
    booking.status != "canceled" &&
    booking.status != "completed")
  availableSpots.filter (fun spot =>
    !(bookings.any (fun booking =>
      booking.spotId == spot.id &&
      (decide (booking.startTime ≤ endTime) && decide (booking.endTime ≥ startTime)))))

/-- DatabaseStorage.getAvailableParkingSpots over the same abstract store
contents: same flag pre-filter, but the SQL `where` clause selects bookings
with `status = 'pending' OR status = 'confirmed'` (instead of excluding
`canceled`/`completed`) and `endTime >= startTime AND startTime <= endTime`,
then removes the spots whose id appears among the selected bookings. -/
def getAvailableParkingSpotsDB (s : Store) (locationId : Nat)
    (startTime endTime : Int) : List ParkingSpot :=
  let spots := getParkingSpotsByLocationId s locationId
  let availableSpots := spots.filter (fun spot => spot.isAvailable == some true)
  let overlappingBookings := s.parkingBookings.filter (fun booking =>
    booking.locationId == locationId &&
    (booking.status == "pending" || booking.status == "confirmed") &&
    (decide (booking.endTime ≥ startTime) && decide (booking.startTime ≤ endTime)))
  let bookedSpotIds := overlappingBookings.map (fun booking => booking.spotId)
  availableSpots.filter (fun spot => !(bookedSpotIds.contains spot.id))

/-- The in-place record update performed by
MemStorage.updateParkingSpotAvailability on the matching map entry. -/
def setFlag (id : Nat) (v : Bool) (sp : ParkingSpot) : ParkingSpot :=
  if sp.id == id then { sp with isAvailable := some v } else sp

/-- MemStorage.updateParkingSpotAvailability: throws when the id is absent
(`none` here), otherwise writes the boolean into the spot record in place. -/
def updateParkingSpotAvailability (s : Store) (id : Nat) (v : Bool) :
    Option Store :=
  if s.parkingSpots.any (fun sp => sp.id == id) then
    some { s with parkingSpots := s.parkingSpots.map (setFlag id v) }
  else none

/-- Error outcomes of the booking routes. `NoAvailability` is the 400
"No available parking spots for the selected time", `LocationNotFound`
the 404 "Parking location not found", `NotFound` the 404 "Booking not
found", `Forbidden` the 403 ownership failure, and `StorageError` the 500
raised when a storage method throws. -/
inductive BookingError where
  | NoAvailability
  | LocationNotFound
  | NotFound
  | Forbidden
  | StorageError
deriving Repr, DecidableEq

/-- Input of `POST /api/bookings`: the request body fields plus the
authenticated user id and the randomly generated booking code. -/
structure BookingRequest where
  userId : Nat
  vehicleId : Nat
  locationId : Nat
  startTime : Int
  endTime : Int
  bookingCode : String
deriving Repr, DecidableEq

/-- JS `Math.ceil((end - start) / (1000 * 60 * 60))` on millisecond
timestamps: the integer ceiling of the duration in hours,
`⌈d / 3600000⌉ = -⌊-d / 3600000⌋` via flooring integer division. -/
def hoursCeil (startTime endTime : Int) : Int :=
  -((-(endTime - startTime)).fdiv 3600000)

/-- Read-only phase of the `POST /api/bookings` handler: the availability
query, the `NoAvailability` early return on an empty result, the selection
of the first available spot, and the location lookup with its
`LocationNotFound` early return. -/
def createCheck (s : Store) (r : BookingRequest) :
    Except BookingError (ParkingSpot × ParkingLocation) :=
  match getAvailableParkingSpots s r.locationId r.startTime r.endTime with
  | [] => Except.error BookingError.NoAvailability
  | spot :: _ =>
    match getParkingLocationById s r.locationId with
    | none => Except.error BookingError.LocationNotFound
    | some location => Except.ok (spot, location)

/-- The booking row persisted by the `POST /api/bookings` handler:
`totalAmount = hours * hourlyRate + 1.5` (the 1.5 booking fee), status
`confirmed`, id from the booking counter. -/
def mkBooking (s : Store) (r : BookingRequest)
    (spot : ParkingSpot) (location : ParkingLocation) : ParkingBooking :=
  { id := s.currentBookingIds
    userId := r.userId
    vehicleId := r.vehicleId
    spotId := spot.id
    locationId := r.locationId
    startTime := r.startTime
    endTime := r.endTime
    status := "confirmed"
    bookingCode := r.bookingCode
    totalAmount := (hoursCeil r.startTime r.endTime : Rat) * location.hourlyRate + 1.5 }

/-- Write phase of the `POST /api/bookings` handler: persist the booking
(`mkBooking`), then flip the chosen spot flag to `false`. The booking row is
committed before the flag update, exactly as in the handler. -/
def createCommit (s : Store) (r : BookingRequest)
    (spot : ParkingSpot) (location : ParkingLocation) :
    Except BookingError ParkingBooking × Store :=
  match updateParkingSpotAvailability
      { s with
        parkingBookings := s.parkingBookings ++ [mkBooking s r spot location]
        currentBookingIds := s.currentBookingIds + 1 } spot.id false with
  | some s2 => (Except.ok (mkBooking s r spot location), s2)
  | none =>
    (Except.error BookingError.StorageError,
      { s with
        parkingBookings := s.parkingBookings ++ [mkBooking s r spot location]
        currentBookingIds := s.currentBookingIds + 1 })

/-- The full `POST /api/bookings` handler executed sequentially: check
phase followed immediately by commit phase on the unchanged store. -/
def createBooking (s : Store) (r : BookingRequest) :
    Except BookingError ParkingBooking × Store :=
  match createCheck s r with
  | Except.error e => (Except.error e, s)
  | Except.ok (spot, location) => createCommit s r spot location

/-- A partial update body for `PATCH /api/bookings/:id`. The handler merges
`req.body` wholesale into the stored record (`{ ...existing, ...update }`),
so every booking field is patchable; `none` means the field is absent from
the body. (The body could even overwrite `id`, desynchronising the record
from its map key; no claim depends on that, so `id` is not patchable here.) -/
structure BookingPatch where
  userId : Option Nat := none
  vehicleId : Option Nat := none
  spotId : Option Nat := none
  locationId : Option Nat := none
  startTime : Option Int := none
  endTime : Option Int := none
  status : Option String := none
  bookingCode : Option String := none
  totalAmount : Option Rat := none
deriving Repr, DecidableEq

/-- The `{ ...existingBooking, ...bookingUpdate }` merge of
MemStorage.updateParkingBooking. -/
def applyPatch (b : ParkingBooking) (p : BookingPatch) : ParkingBooking :=
  { b with
    userId := p.userId.getD b.userId
    vehicleId := p.vehicleId.getD b.vehicleId
    spotId := p.spotId.getD b.spotId
    locationId := p.locationId.getD b.locationId
    startTime := p.startTime.getD b.startTime
    endTime := p.endTime.getD b.endTime
    status := p.status.getD b.status
    bookingCode := p.bookingCode.getD b.bookingCode
    totalAmount := p.totalAmount.getD b.totalAmount }

/-- The `PATCH /api/bookings/:id` handler: fetch; 404 when absent; 403 when
the requesting user does not own the booking; otherwise merge the body into
the record with no availability re-check of any kind. -/
def modifyBooking (s : Store) (bookingId userId : Nat) (p : BookingPatch) :
    Except BookingError ParkingBooking × Store :=
  match getParkingBookingById s bookingId with
  | none => (Except.error BookingError.NotFound, s)
  | some booking =>
    if booking.userId ≠ userId then (Except.error BookingError.Forbidden, s)
    else
      (Except.ok (applyPatch booking p),
        { s with
          parkingBookings := s.parkingBookings.map (fun b =>
            if b.id == bookingId then applyPatch b p else b) })

/-- The in-place status write performed on the matching map entry by
`storage.updateParkingBooking(bookingId, { status: "canceled" })` in the
DELETE handler. -/
def setCanceled (bookingId : Nat) (b : ParkingBooking) : ParkingBooking :=
  if b.id == bookingId then { b with status := "canceled" } else b

/-- The `DELETE /api/bookings/:id` handler: fetch; 404 when absent; 403 when
not the owner; otherwise set the booking status to `canceled` (with no check
of the current status) and then set the referenced spot flag to `true`
unconditionally. The status write commits before the flag update, so the
(unreachable in consistent states) missing-spot throw leaves the booking
already canceled. -/
def cancelBooking (s : Store) (bookingId userId : Nat) :
    Except BookingError Unit × Store :=
  match getParkingBookingById s bookingId with
  | none => (Except.error BookingError.NotFound, s)
  | some booking =>
    if booking.userId ≠ userId then (Except.error BookingError.Forbidden, s)
    else
      match updateParkingSpotAvailability
          { s with parkingBookings := s.parkingBookings.map (setCanceled bookingId) }
          booking.spotId true with
      | some s2 => (Except.ok (), s2)
      | none =>
        (Except.error BookingError.StorageError,
          { s with parkingBookings := s.parkingBookings.map (setCanceled bookingId) })

/-- The operations that build and mutate the store: the provisioning calls
`storage.createParkingLocation` / `storage.createParkingSpot` (executed by
`initializeDemoData` at server start) and the three public booking routes. -/
inductive Op where
  | provisionLocation (l : InsertLocation)
  | provisionSpot (sp : InsertSpot)
  | create (r : BookingRequest)
  | modify (bookingId userId : Nat) (p : BookingPatch)
  | cancel (bookingId userId : Nat)
deriving Repr, DecidableEq

/-- Execute one operation, keeping the resulting store and discarding the
HTTP response. -/
def applyOp (s : Store) (op : Op) : Store :=
  match op with
  | Op.provisionLocation l => (createParkingLocation s l).2
  | Op.provisionSpot sp => (createParkingSpot s sp).2
  | Op.create r => (createBooking s r).2
  | Op.modify bookingId userId p => (modifyBooking s bookingId userId p).2
  | Op.cancel bookingId userId => (cancelBooking s bookingId userId).2

/-- Execute a sequence of operations from left to right. -/
def applyOps (s : Store) (ops : List Op) : Store :=
  ops.foldl applyOp s

/-- Whether an operation is the `PATCH /api/bookings/:id` route. -/
def Op.isModify : Op → Bool
  | Op.modify _ _ _ => true
  | _ => false

/-- Active booking in the sense of the claims and the spec glossary:
status `pending` or `confirmed`. -/
def claimActive (b : ParkingBooking) : Prop :=
  b.status = "pending" ∨ b.status = "confirmed"

instance (b : ParkingBooking) : Decidable (claimActive b) := by
  unfold claimActive; infer_instance

/-- Strict interval overlap as used by the no-double-booking claim:
`B1.startTime < B2.endTime AND B2.startTime < B1.endTime`. -/
def overlapStrict (b1 b2 : ParkingBooking) : Prop :=
  b1.startTime < b2.endTime ∧ b2.startTime < b1.endTime

instance (b1 b2 : ParkingBooking) : Decidable (overlapStrict b1 b2) := by
  unfold overlapStrict; infer_instance

/-- The no-double-booking invariant of claim C1: no two distinct active
bookings on the same spot have strictly overlapping intervals. -/
def NoDoubleBooking (s : Store) : Prop :=
  ∀ b1 ∈ s.parkingBookings, ∀ b2 ∈ s.parkingBookings,
    b1.id ≠ b2.id → claimActive b1 → claimActive b2 →
    b1.spotId = b2.spotId → ¬ overlapStrict b1 b2

instance (s : Store) : Decidable (NoDoubleBooking s) := by
  unfold NoDoubleBooking; infer_instance

/-- Modelled from the spec wording of claim C2 (availability correctness):
the spots of the location that have no active booking (status `pending` or
`confirmed`) overlapping the half-open interval `[t0, t1)`, with no use of
the cached `isAvailable` flag. Stated alongside the source-derived
`getAvailableParkingSpots` for comparison. -/
def availableSpotsSpec (s : Store) (locationId : Nat) (t0 t1 : Int) :
    List ParkingSpot :=
  s.parkingSpots.filter (fun spot =>
    spot.locationId == locationId &&
    !(s.parkingBookings.any (fun booking =>
      booking.spotId == spot.id &&
      (booking.status == "pending" || booking.status == "confirmed") &&
      (decide (booking.startTime < t1) && decide (t0 < booking.endTime)))))

example : hoursCeil 0 3600000 = 1 := by decide
example : hoursCeil 0 3600001 = 2 := by decide
example : hoursCeil 50400000 61200000 = 3 := by decide
example : hoursCeil 0 0 = 0 := by decide

/-! Concrete stores used by scenario evaluations, counterexamples and
witnesses. `seedStore` matches the shape of the demo data: one location
with hourly rate 5 and one spot, provisioned before any booking exists. -/

/-- The single location of the one-spot test store: id 1, hourly rate 5. -/
def seedLoc : ParkingLocation := { id := 1, hourlyRate := 5 }

/-- The single spot of the one-spot test store: id 1 at location 1, cached
flag `true`. -/
def seedSpot : ParkingSpot := { id := 1, locationId := 1, isAvailable := some true }

/-- One location (rate 5), one available spot, no bookings. -/
def seedStore : Store :=
  { parkingLocations := [seedLoc]
    parkingSpots := [seedSpot]
    parkingBookings := []
    currentLocationIds := 2
    currentSpotIds := 2
    currentBookingIds := 1 }

deriving instance DecidableEq for Except

-- sanity checks of the embedding on concrete inputs
example :
    getAvailableParkingSpots seedStore 1 0 3600000 = [seedSpot] := by decide
example :
    ((createBooking seedStore
      { userId := 7, vehicleId := 1, locationId := 1,
        startTime := 0, endTime := 3600000, bookingCode := "PARK-AAA111" }).1.isOk) = true ∧
    ((createBooking seedStore
      { userId := 7, vehicleId := 1, locationId := 1,
        startTime := 0, endTime := 3600000, bookingCode := "PARK-AAA111" }).2.parkingSpots =
      [{ id := 1, locationId := 1, isAvailable := some false }]) := by decide

/-- Request used by the C1 trace: user 7 books location 1 for the interval
from epoch 0 to one hour (milliseconds). -/
def c1req1 : BookingRequest :=
  { userId := 7, vehicleId := 1, locationId := 1,
    startTime := 0, endTime := 3600000, bookingCode := "PARK-AAA111" }

/-- Second booking request of the C1 trace, same interval and location. -/
def c1req2 : BookingRequest :=
  { userId := 7, vehicleId := 1, locationId := 1,
    startTime := 0, endTime := 3600000, bookingCode := "PARK-BBB222" }

/-- The C1 counterexample trace: provision one location and one spot, book
it, cancel the booking, book the same interval again (succeeds: the first
booking is canceled and the flag was reset), then PATCH the first booking
status back to `confirmed`. The PATCH re-runs no availability check, so the
final state holds two confirmed bookings for spot 1 on the same interval. -/
def c1badTrace : List Op :=
  [ Op.provisionLocation { hourlyRate := 5 },
    Op.provisionSpot { locationId := 1, isAvailable := some true },
    Op.create c1req1,
    Op.cancel 1 7,
    Op.create c1req2,
    Op.modify 1 7 { status := some "confirmed" } ]

/-- The same trace without the PATCH step. -/
def c1goodTrace : List Op :=
  [ Op.provisionLocation { hourlyRate := 5 },
    Op.provisionSpot { locationId := 1, isAvailable := some true },
    Op.create c1req1,
    Op.cancel 1 7,
    Op.create c1req2 ]

-- sanity checks of the two traces
example : ¬ NoDoubleBooking (applyOps emptyStore c1badTrace) := by decide
example : NoDoubleBooking (applyOps emptyStore c1goodTrace) := by decide
example : (applyOps emptyStore c1badTrace).parkingBookings.map
    (fun b => (b.id, b.spotId, b.status)) =
    [(1, 1, "confirmed"), (2, 1, "confirmed")] := by decide

/-! Helper characterizations of the two availability resolvers. -/

/-- Membership in the MemStorage resolver result: a spot is returned iff it
belongs to the location, its cached flag is `true`, and no booking of the
location with status other than `canceled`/`completed` on this spot
satisfies the inclusive test `start <= requestedEnd AND end >= requestedStart`. -/
theorem mem_getAvailableParkingSpots_iff (s : Store) (locationId : Nat)
    (t0 t1 : Int) (sp : ParkingSpot) :
    sp ∈ getAvailableParkingSpots s locationId t0 t1 ↔
      sp ∈ s.parkingSpots ∧ sp.locationId = locationId ∧
      sp.isAvailable = some true ∧
      ¬ ∃ b ∈ s.parkingBookings, b.locationId = locationId ∧
        b.status ≠ "canceled" ∧ b.status ≠ "completed" ∧
        b.spotId = sp.id ∧ b.startTime ≤ t1 ∧ b.endTime ≥ t0 := by
  simp only [getAvailableParkingSpots, getParkingSpotsByLocationId,
    List.mem_filter, List.any_eq_true, Bool.not_eq_true', Bool.and_eq_true,
    beq_iff_eq, bne_iff_ne, decide_eq_true_eq, List.any_eq_false,
    Bool.not_eq_true]
  constructor
  · rintro ⟨⟨⟨hmem, hloc⟩, hflag⟩, hno⟩
    refine ⟨hmem, hloc, hflag, ?_⟩
    rintro ⟨b, hb, hbl, hbc, hbco, hbs, hbt0, hbt1⟩
    exact hno b ⟨hb, ⟨hbl, hbc⟩, hbco⟩ ⟨hbs, hbt0, hbt1⟩
  · rintro ⟨hmem, hloc, hflag, hno⟩
    refine ⟨⟨⟨hmem, hloc⟩, hflag⟩, ?_⟩
    rintro b ⟨hb, ⟨hbl, hbc⟩, hbco⟩ ⟨hbs, hbt0, hbt1⟩
    exact hno ⟨b, hb, hbl, hbc, hbco, hbs, hbt0, hbt1⟩

/-- Membership in the DatabaseStorage resolver result: same flag pre-filter,
active means status `pending` or `confirmed`, same inclusive boundary test. -/
theorem mem_getAvailableParkingSpotsDB_iff (s : Store) (locationId : Nat)
    (t0 t1 : Int) (sp : ParkingSpot) :
    sp ∈ getAvailableParkingSpotsDB s locationId t0 t1 ↔
      sp ∈ s.parkingSpots ∧ sp.locationId = locationId ∧
      sp.isAvailable = some true ∧
      ¬ ∃ b ∈ s.parkingBookings, b.locationId = locationId ∧
        (b.status = "pending" ∨ b.status = "confirmed") ∧
        b.spotId = sp.id ∧ b.startTime ≤ t1 ∧ b.endTime ≥ t0 := by
  simp only [getAvailableParkingSpotsDB, getParkingSpotsByLocationId,
    List.mem_filter, List.contains_eq_any_beq, List.any_eq_true,
    Bool.not_eq_true', List.any_eq_false, Bool.and_eq_true, beq_iff_eq,
    Bool.or_eq_true, decide_eq_true_eq, List.mem_map, Bool.not_eq_true]
  constructor
  · rintro ⟨⟨⟨hmem, hloc⟩, hflag⟩, hno⟩
    refine ⟨hmem, hloc, hflag, ?_⟩
    rintro ⟨b, hb, hbl, hbst, hbs, hbt1, hbt0⟩
    exact hno b.spotId ⟨b, ⟨hb, ⟨hbl, hbst⟩, hbt0, hbt1⟩, rfl⟩ hbs.symm
  · rintro ⟨hmem, hloc, hflag, hno⟩
    refine ⟨⟨⟨hmem, hloc⟩, hflag⟩, ?_⟩
    rintro x ⟨b, ⟨hb, ⟨hbl, hbst⟩, hbt0, hbt1⟩, rfl⟩ heq
    exact hno ⟨b, hb, hbl, hbst, heq.symm, hbt1, hbt0⟩

/-! Inductive invariant for the no-double-booking property. -/

/-- Pairwise compatibility of two bookings: if both are active and share a
spot, their intervals do not strictly overlap. -/
def noConflict (b1 b2 : ParkingBooking) : Prop :=
  b1.spotId = b2.spotId → claimActive b1 → claimActive b2 → ¬ overlapStrict b1 b2

/-- Compatibility is symmetric, since strict overlap is. -/
theorem noConflict_symm : Symmetric noConflict := by
  intro b1 b2 h hspot ha2 ha1 hov
  exact h hspot.symm ha1 ha2 ⟨hov.2, hov.1⟩

/-- The inductive invariant carried through every operation: spot ids are
bounded by the spot counter and duplicate-free, every booking references a
spot id below the counter and agrees with that spot on the location, and
the bookings are pairwise compatible. -/
def StoreInv (s : Store) : Prop :=
  (∀ sp ∈ s.parkingSpots, sp.id < s.currentSpotIds) ∧
  (s.parkingSpots.map ParkingSpot.id).Nodup ∧
  (∀ b ∈ s.parkingBookings, b.spotId < s.currentSpotIds) ∧
  (∀ b ∈ s.parkingBookings, ∀ sp ∈ s.parkingSpots,
    sp.id = b.spotId → sp.locationId = b.locationId) ∧
  s.parkingBookings.Pairwise noConflict

theorem setFlag_id (id : Nat) (v : Bool) (sp : ParkingSpot) :
    (setFlag id v sp).id = sp.id := by
  unfold setFlag; split <;> rfl

theorem setFlag_locationId (id : Nat) (v : Bool) (sp : ParkingSpot) :
    (setFlag id v sp).locationId = sp.locationId := by
  unfold setFlag; split <;> rfl

theorem setCanceled_spotId (i : Nat) (b : ParkingBooking) :
    (setCanceled i b).spotId = b.spotId := by
  unfold setCanceled; split <;> rfl

theorem setCanceled_locationId (i : Nat) (b : ParkingBooking) :
    (setCanceled i b).locationId = b.locationId := by
  unfold setCanceled; split <;> rfl

theorem setCanceled_startTime (i : Nat) (b : ParkingBooking) :
    (setCanceled i b).startTime = b.startTime := by
  unfold setCanceled; split <;> rfl

theorem setCanceled_endTime (i : Nat) (b : ParkingBooking) :
    (setCanceled i b).endTime = b.endTime := by
  unfold setCanceled; split <;> rfl

theorem setCanceled_active (i : Nat) (b : ParkingBooking) :
    claimActive (setCanceled i b) → claimActive b := by
  unfold setCanceled
  split
  · rintro (h | h) <;> simp [claimActive] at h
  · exact id

theorem noConflict_setCanceled (i : Nat) (b1 b2 : ParkingBooking)
    (h : noConflict b1 b2) : noConflict (setCanceled i b1) (setCanceled i b2) := by
  intro hspot ha1 ha2 hov
  rw [setCanceled_spotId, setCanceled_spotId] at hspot
  rw [overlapStrict, setCanceled_startTime, setCanceled_startTime,
    setCanceled_endTime, setCanceled_endTime] at hov
  exact h hspot (setCanceled_active i b1 ha1) (setCanceled_active i b2 ha2) hov

theorem inv_empty : StoreInv emptyStore := by
  refine ⟨?_, ?_, ?_, ?_, ?_⟩ <;> simp [emptyStore]

theorem inv_provisionLocation (s : Store) (l : InsertLocation) (h : StoreInv s) :
    StoreInv (createParkingLocation s l).2 := by
  obtain ⟨h1, h2, h3, h4, h5⟩ := h
  exact ⟨h1, h2, h3, h4, h5⟩

theorem inv_provisionSpot (s : Store) (ins : InsertSpot) (h : StoreInv s) :
    StoreInv (createParkingSpot s ins).2 := by
  obtain ⟨h1, h2, h3, h4, h5⟩ := h
  refine ⟨?_, ?_, ?_, ?_, h5⟩
  · intro sp hsp
    simp only [createParkingSpot, List.mem_append, List.mem_singleton] at hsp
    rcases hsp with hsp | rfl
    · exact Nat.lt_succ_of_lt (h1 sp hsp)
    · exact Nat.lt_succ_self _
  · simp only [createParkingSpot, List.map_append, List.map_cons, List.map_nil]
    rw [List.nodup_append]
    refine ⟨h2, List.nodup_singleton _, ?_⟩
    intro x hx hx'
    simp only [List.mem_singleton] at hx'
    subst hx'
    obtain ⟨sp, hsp, hid⟩ := List.mem_map.1 hx
    exact absurd hid (Nat.ne_of_lt (h1 sp hsp))
  · intro b hb
    exact Nat.lt_succ_of_lt (h3 b hb)
  · intro b hb sp hsp hid
    simp only [createParkingSpot, List.mem_append, List.mem_singleton] at hsp
    rcases hsp with hsp | rfl
    · exact h4 b hb sp hsp hid
    · exact absurd hid.symm (Nat.ne_of_lt (h3 b hb))

theorem updateSpot_some (s : Store) (id : Nat) (v : Bool)
    (h : ∃ sp ∈ s.parkingSpots, sp.id = id) :
    updateParkingSpotAvailability s id v =
      some { s with parkingSpots := s.parkingSpots.map (setFlag id v) } := by
  obtain ⟨sp, hsp, hid⟩ := h
  unfold updateParkingSpotAvailability
  rw [if_pos]
  exact List.any_eq_true.2 ⟨sp, hsp, by simp [hid]⟩

/-- Inversion of the check phase: success means the chosen spot heads the
availability list and the location lookup succeeded. -/
theorem createCheck_ok (s : Store) (r : BookingRequest)
    (spot : ParkingSpot) (location : ParkingLocation)
    (hc : createCheck s r = Except.ok (spot, location)) :
    (∃ t, getAvailableParkingSpots s r.locationId r.startTime r.endTime = spot :: t) ∧
    getParkingLocationById s r.locationId = some location := by
  unfold createCheck at hc
  cases hl : getAvailableParkingSpots s r.locationId r.startTime r.endTime with
  | nil => rw [hl] at hc; exact absurd hc (by simp)
  | cons a t =>
    rw [hl] at hc
    cases hlo : getParkingLocationById s r.locationId with
    | none => rw [hlo] at hc; exact absurd hc (by simp)
    | some loc =>
      rw [hlo] at hc
      simp only [Except.ok.injEq, Prod.mk.injEq] at hc
      obtain ⟨rfl, rfl⟩ := hc
      exact ⟨⟨t, rfl⟩, rfl⟩

/-- Evaluation of the commit phase when the chosen spot exists in the
store: booking appended, counter bumped, flag flipped to false. -/
theorem createCommit_eq (s : Store) (r : BookingRequest)
    (spot : ParkingSpot) (location : ParkingLocation)
    (hspmem : spot ∈ s.parkingSpots) :
    createCommit s r spot location =
      (Except.ok (mkBooking s r spot location),
        { s with
          parkingSpots := s.parkingSpots.map (setFlag spot.id false)
          parkingBookings := s.parkingBookings ++ [mkBooking s r spot location]
          currentBookingIds := s.currentBookingIds + 1 }) := by
  unfold createCommit
  rw [updateSpot_some
    { s with
      parkingBookings := s.parkingBookings ++ [mkBooking s r spot location]
      currentBookingIds := s.currentBookingIds + 1 } spot.id false
    ⟨spot, hspmem, rfl⟩]

theorem inv_create (s : Store) (r : BookingRequest) (h : StoreInv s) :
    StoreInv (createBooking s r).2 := by
  obtain ⟨h1, h2, h3, h4, h5⟩ := h
  unfold createBooking
  cases hc : createCheck s r with
  | error e => exact ⟨h1, h2, h3, h4, h5⟩
  | ok pl =>
    obtain ⟨spot, location⟩ := pl
    obtain ⟨⟨t, ht⟩, hloc⟩ := createCheck_ok s r spot location hc
    have hmem : spot ∈ getAvailableParkingSpots s r.locationId r.startTime r.endTime := by
      rw [ht]; exact List.mem_cons_self _ _
    obtain ⟨hspmem, hsploc, hspflag, hnoc⟩ :=
      (mem_getAvailableParkingSpots_iff s r.locationId r.startTime r.endTime spot).1 hmem
    show StoreInv (createCommit s r spot location).2
    rw [createCommit_eq s r spot location hspmem]
    refine ⟨?_, ?_, ?_, ?_, ?_⟩
    · intro sp hsp
      simp only [List.mem_map] at hsp
      obtain ⟨sp0, hsp0, rfl⟩ := hsp
      rw [setFlag_id]
      exact h1 sp0 hsp0
    · dsimp only
      have hcomp : ParkingSpot.id ∘ setFlag spot.id false = ParkingSpot.id :=
        funext (setFlag_id spot.id false)
      rw [List.map_map, hcomp]
      exact h2
    · intro b hb
      simp only [List.mem_append, List.mem_singleton] at hb
      rcases hb with hb | rfl
      · exact h3 b hb
      · exact h1 spot hspmem
    · intro b hb sp hsp hid
      simp only [List.mem_map] at hsp
      obtain ⟨sp0, hsp0, rfl⟩ := hsp
      rw [setFlag_id] at hid
      rw [setFlag_locationId]
      simp only [List.mem_append, List.mem_singleton] at hb
      rcases hb with hb | rfl
      · exact h4 b hb sp0 hsp0 hid
      · have hsp0eq : sp0 = spot :=
          List.inj_on_of_nodup_map h2 hsp0 hspmem (by simpa using hid)
        rw [hsp0eq]
        exact hsploc
    · dsimp only
      rw [List.pairwise_append]
      refine ⟨h5, List.pairwise_singleton _ _, ?_⟩
      intro b hb nb hnb
      simp only [List.mem_singleton] at hnb
      subst hnb
      intro hspot hab hanb hov
      simp only [mkBooking] at hspot hov
      have hbloc : b.locationId = r.locationId := by
        have hsl := h4 b hb spot hspmem hspot.symm
        rw [← hsl]
        exact hsploc
      have hbc : b.status ≠ "canceled" := by
        rcases hab with hst | hst <;> rw [hst] <;> decide
      have hbco : b.status ≠ "completed" := by
        rcases hab with hst | hst <;> rw [hst] <;> decide
      exact hnoc ⟨b, hb, hbloc, hbc, hbco, hspot,
        le_of_lt hov.1, le_of_lt hov.2⟩

theorem inv_cancel (s : Store) (bid uid : Nat) (h : StoreInv s) :
    StoreInv (cancelBooking s bid uid).2 := by
  obtain ⟨h1, h2, h3, h4, h5⟩ := h
  have k3 : ∀ b ∈ s.parkingBookings.map (setCanceled bid),
      b.spotId < s.currentSpotIds := by
    intro b hb
    obtain ⟨b0, hb0, rfl⟩ := List.mem_map.1 hb
    rw [setCanceled_spotId]
    exact h3 b0 hb0
  have k4 : ∀ b ∈ s.parkingBookings.map (setCanceled bid),
      ∀ sp ∈ s.parkingSpots, sp.id = b.spotId → sp.locationId = b.locationId := by
    intro b hb sp hsp hid
    obtain ⟨b0, hb0, rfl⟩ := List.mem_map.1 hb
    rw [setCanceled_spotId] at hid
    rw [setCanceled_locationId]
    exact h4 b0 hb0 sp hsp hid
  have k5 : (s.parkingBookings.map (setCanceled bid)).Pairwise noConflict := by
    rw [List.pairwise_map]
    exact h5.imp (fun hab => noConflict_setCanceled _ _ _ hab)
  unfold cancelBooking
  cases hg : getParkingBookingById s bid with
  | none => exact ⟨h1, h2, h3, h4, h5⟩
  | some booking =>
    dsimp only
    split
    · exact ⟨h1, h2, h3, h4, h5⟩
    · cases hupd : updateParkingSpotAvailability
          { s with parkingBookings := s.parkingBookings.map (setCanceled bid) }
          booking.spotId true with
      | none => exact ⟨h1, h2, k3, k4, k5⟩
      | some s2 =>
        unfold updateParkingSpotAvailability at hupd
        split at hupd
        · cases hupd
          refine ⟨?_, ?_, k3, ?_, k5⟩
          · intro sp hsp
            obtain ⟨sp0, hsp0, rfl⟩ := List.mem_map.1 hsp
            rw [setFlag_id]
            exact h1 sp0 hsp0
          · dsimp only
            have hcomp : ParkingSpot.id ∘ setFlag booking.spotId true = ParkingSpot.id :=
              funext (setFlag_id booking.spotId true)
            rw [List.map_map, hcomp]
            exact h2
          · intro b hb sp hsp hid
            obtain ⟨sp0, hsp0, rfl⟩ := List.mem_map.1 hsp
            rw [setFlag_id] at hid
            rw [setFlag_locationId]
            exact k4 b hb sp0 hsp0 hid
        · cases hupd

theorem inv_applyOp (s : Store) (op : Op) (hop : op.isModify = false)
    (h : StoreInv s) : StoreInv (applyOp s op) := by
  cases op with
  | provisionLocation l => exact inv_provisionLocation s l h
  | provisionSpot sp => exact inv_provisionSpot s sp h
  | create r => exact inv_create s r h
  | modify bid uid p => simp [Op.isModify] at hop
  | cancel bid uid => exact inv_cancel s bid uid h

theorem inv_applyOps (ops : List Op) : ∀ s : Store,
    (∀ op ∈ ops, op.isModify = false) → StoreInv s → StoreInv (applyOps s ops) := by
  induction ops with
  | nil => exact fun s _ h => h
  | cons op t ih =>
    intro s hall h
    exact ih (applyOp s op)
      (fun o ho => hall o (List.mem_cons_of_mem _ ho))
      (inv_applyOp s op (hall op (List.mem_cons_self _ _)) h)

theorem noDoubleBooking_of_inv (s : Store) (h : StoreInv s) :
    NoDoubleBooking s := by
  obtain ⟨-, -, -, -, h5⟩ := h
  intro b1 hb1 b2 hb2 hne ha1 ha2 hspot hov
  have hne' : b1 ≠ b2 := fun he => hne (he ▸ rfl)
  exact List.Pairwise.forall noConflict_symm h5 hb1 hb2 hne' hspot ha1 ha2 hov

/-- C1 (counterexample): the no-double-booking invariant as claimed — over
every sequence of the public operations, `modifyBooking` included — fails.
The concrete trace `c1badTrace` provisions one spot, books it, cancels the
booking, books the same interval again, and then PATCHes the first booking
status back to `confirmed`; the PATCH handler re-runs no availability
check, so the final state holds two distinct confirmed bookings for spot 1
with identical (strictly overlapping) intervals. -/
theorem c1_counterexample :
    ¬ NoDoubleBooking (applyOps emptyStore c1badTrace) := by decide

/-- C1 (amended): in every state reachable from the empty store by any
sequence of provisioning, `createBooking` and `cancelBooking` operations —
that is, every public operation except `modifyBooking` — no two distinct
active bookings (status `pending` or `confirmed`) on the same spot have
`B1.startTime < B2.endTime` and `B2.startTime < B1.endTime` both true. -/
theorem c1_no_double_booking_without_modify (ops : List Op)
    (h : ∀ op ∈ ops, op.isModify = false) :
    NoDoubleBooking (applyOps emptyStore ops) :=
  noDoubleBooking_of_inv _ (inv_applyOps ops emptyStore h inv_empty)

/-- Witness for the amended C1 theorem on the concrete five-operation
trace that books, cancels and rebooks one spot. -/
theorem c1_no_double_booking_without_modify_witness :
    (∀ op ∈ c1goodTrace, op.isModify = false) ∧
    NoDoubleBooking (applyOps emptyStore c1goodTrace) :=
  ⟨by decide, c1_no_double_booking_without_modify c1goodTrace (by decide)⟩

/-- Store for the C2 counterexample: one spot whose cached flag is `false`
and no bookings at all. -/
def c2store : Store :=
  { parkingLocations := []
    parkingSpots := [{ id := 1, locationId := 1, isAvailable := some false }]
    parkingBookings := []
    currentLocationIds := 1
    currentSpotIds := 2
    currentBookingIds := 1 }

/-- C2 (counterexample): availability is not independent of the cached
flag. In `c2store` spot 1 belongs to location 1 and has no booking
whatsoever, so the claim requires it to be returned; but its flag is
`false` and the flag pre-filter drops it, so `getAvailableParkingSpots`
returns the empty list. -/
theorem c2_counterexample :
    getAvailableParkingSpots c2store 1 0 3600000 = [] ∧
    availableSpotsSpec c2store 1 0 3600000 =
      [{ id := 1, locationId := 1, isAvailable := some false }] ∧
    getAvailableParkingSpots c2store 1 0 3600000 ≠
      availableSpotsSpec c2store 1 0 3600000 := by decide

/-- C2 (amended): what `MemStorage.getAvailableParkingSpots` actually
returns — exactly the spots of the location whose cached `isAvailable` flag
is `true` and that have no booking of the location with status other than
`canceled`/`completed` satisfying the inclusive test
`startTime <= t1 AND endTime >= t0`. The cached flag does take part in the
answer, and the overlap test is inclusive rather than half-open. -/
theorem c2_availability_characterization (s : Store) (locationId : Nat)
    (t0 t1 : Int) (sp : ParkingSpot) :
    sp ∈ getAvailableParkingSpots s locationId t0 t1 ↔
      sp ∈ s.parkingSpots ∧ sp.locationId = locationId ∧
      sp.isAvailable = some true ∧
      ¬ ∃ b ∈ s.parkingBookings, b.locationId = locationId ∧
        b.status ≠ "canceled" ∧ b.status ≠ "completed" ∧
        b.spotId = sp.id ∧ b.startTime ≤ t1 ∧ b.endTime ≥ t0 :=
  mem_getAvailableParkingSpots_iff s locationId t0 t1 sp

/-- C6: among the spots that pass the flag pre-filter (flag `true`, right
location), a spot is excluded from `getAvailableParkingSpots` exactly when
some booking of the location with status other than `canceled`/`completed`
references it with `booking.startTime <= requestedEnd AND
booking.endTime >= requestedStart` — the inclusive test, so
boundary-touching bookings count as conflicts. -/
theorem c6_inclusive_boundary (s : Store) (locationId : Nat) (t0 t1 : Int)
    (sp : ParkingSpot) (hmem : sp ∈ s.parkingSpots)
    (hloc : sp.locationId = locationId) (hflag : sp.isAvailable = some true) :
    sp ∉ getAvailableParkingSpots s locationId t0 t1 ↔
      ∃ b ∈ s.parkingBookings, b.locationId = locationId ∧
        b.status ≠ "canceled" ∧ b.status ≠ "completed" ∧
        b.spotId = sp.id ∧ b.startTime ≤ t1 ∧ b.endTime ≥ t0 := by
  constructor
  · intro hnot
    by_contra hnob
    exact hnot ((mem_getAvailableParkingSpots_iff s locationId t0 t1 sp).2
      ⟨hmem, hloc, hflag, hnob⟩)
  · intro hb hmem2
    obtain ⟨-, -, -, hno⟩ :=
      (mem_getAvailableParkingSpots_iff s locationId t0 t1 sp).1 hmem2
    exact hno hb

/-- Store for the C6 witness: one available spot with a confirmed booking
from 0 to 7200000. -/
def c6store : Store :=
  { parkingLocations := []
    parkingSpots := [{ id := 1, locationId := 1, isAvailable := some true }]
    parkingBookings := [
      { id := 1, userId := 7, vehicleId := 1, spotId := 1, locationId := 1,
        startTime := 0, endTime := 7200000, status := "confirmed",
        bookingCode := "PARK-W6W6W6", totalAmount := 1.5 }]
    currentLocationIds := 1
    currentSpotIds := 2
    currentBookingIds := 2 }

/-- Witness for C6 at the exact boundary: the existing booking ends at
7200000, the millisecond the request starts, yet the spot is excluded. -/
theorem c6_inclusive_boundary_witness :
    ({ id := 1, locationId := 1, isAvailable := some true } : ParkingSpot) ∉
      getAvailableParkingSpots c6store 1 7200000 10800000 :=
  (c6_inclusive_boundary c6store 1 7200000 10800000 _
    (by decide) (by decide) (by decide)).2 (by decide)

/-- Store for the C9 counterexample: one available spot and one overlapping
booking whose status string `in_progress` is outside the four schema
statuses. -/
def c9store : Store :=
  { parkingLocations := []
    parkingSpots := [{ id := 1, locationId := 1, isAvailable := some true }]
    parkingBookings := [
      { id := 1, userId := 7, vehicleId := 1, spotId := 1, locationId := 1,
        startTime := 0, endTime := 3600000, status := "in_progress",
        bookingCode := "PARK-C9C9C9", totalAmount := 1.5 }]
    currentLocationIds := 1
    currentSpotIds := 2
    currentBookingIds := 2 }

/-- C9 (counterexample): the two backends disagree on a booking whose
status is outside the four schema statuses. MemStorage treats
`in_progress` as active (not canceled/completed) and excludes the spot;
DatabaseStorage selects only `pending`/`confirmed` bookings and returns it. -/
theorem c9_counterexample :
    getAvailableParkingSpots c9store 1 0 3600000 = [] ∧
    getAvailableParkingSpotsDB c9store 1 0 3600000 =
      [{ id := 1, locationId := 1, isAvailable := some true }] := by decide

/-- C9 (amended): whenever every booking status lies in the schema set
pending/confirmed/canceled/completed, the two backends return the same set
of spots (the two active-status predicates coincide there). -/
theorem c9_backends_agree_on_schema_statuses (s : Store) (locationId : Nat)
    (t0 t1 : Int)
    (h : ∀ b ∈ s.parkingBookings, b.status = "pending" ∨ b.status = "confirmed" ∨
      b.status = "canceled" ∨ b.status = "completed") (sp : ParkingSpot) :
    sp ∈ getAvailableParkingSpots s locationId t0 t1 ↔
      sp ∈ getAvailableParkingSpotsDB s locationId t0 t1 := by
  rw [mem_getAvailableParkingSpots_iff, mem_getAvailableParkingSpotsDB_iff]
  constructor
  · rintro ⟨hm, hl, hf, hno⟩
    refine ⟨hm, hl, hf, ?_⟩
    rintro ⟨b, hb, hbl, hbst, hbs, hbt1, hbt0⟩
    have hbc : b.status ≠ "canceled" := by
      rcases hbst with hs | hs <;> rw [hs] <;> decide
    have hbco : b.status ≠ "completed" := by
      rcases hbst with hs | hs <;> rw [hs] <;> decide
    exact hno ⟨b, hb, hbl, hbc, hbco, hbs, hbt1, hbt0⟩
  · rintro ⟨hm, hl, hf, hno⟩
    refine ⟨hm, hl, hf, ?_⟩
    rintro ⟨b, hb, hbl, hbc, hbco, hbs, hbt1, hbt0⟩
    have hbst : b.status = "pending" ∨ b.status = "confirmed" := by
      rcases h b hb with hs | hs | hs | hs
      · exact Or.inl hs
      · exact Or.inr hs
      · exact absurd hs hbc
      · exact absurd hs hbco
    exact hno ⟨b, hb, hbl, hbst, hbs, hbt1, hbt0⟩

/-- Store for the C9 witness: a canceled booking and a confirmed booking on
two spots, all statuses within the schema set. -/
def c9wstore : Store :=
  { parkingLocations := []
    parkingSpots := [{ id := 1, locationId := 1, isAvailable := some true },
      { id := 2, locationId := 1, isAvailable := some true }]
    parkingBookings := [
      { id := 1, userId := 7, vehicleId := 1, spotId := 1, locationId := 1,
        startTime := 0, endTime := 3600000, status := "canceled",
        bookingCode := "PARK-W9AAAA", totalAmount := 1.5 },
      { id := 2, userId := 7, vehicleId := 1, spotId := 2, locationId := 1,
        startTime := 0, endTime := 3600000, status := "confirmed",
        bookingCode := "PARK-W9BBBB", totalAmount := 1.5 }]
    currentLocationIds := 1
    currentSpotIds := 3
    currentBookingIds := 3 }

/-- Witness for the amended C9 theorem on a store whose statuses all lie in
the schema set. -/
theorem c9_backends_agree_witness :
    (∀ b ∈ c9wstore.parkingBookings, b.status = "pending" ∨ b.status = "confirmed" ∨
      b.status = "canceled" ∨ b.status = "completed") ∧
    (({ id := 1, locationId := 1, isAvailable := some true } : ParkingSpot) ∈
        getAvailableParkingSpots c9wstore 1 0 3600000 ↔
      ({ id := 1, locationId := 1, isAvailable := some true } : ParkingSpot) ∈
        getAvailableParkingSpotsDB c9wstore 1 0 3600000) :=
  ⟨by decide, c9_backends_agree_on_schema_statuses c9wstore 1 0 3600000 (by decide) _⟩

/-- C10: the availability query runs before the location lookup in the
POST handler. First conjunct: when the store has no spot at the requested
locationId (whether or not a Location record exists), the call fails with
NoAvailability — so LocationNotFound is unreachable there. Second conjunct:
a LocationNotFound failure implies the location lookup failed while at
least one spot was available for the interval at that locationId. -/
theorem c10_error_precedence (s : Store) (r : BookingRequest) :
    ((∀ sp ∈ s.parkingSpots, sp.locationId ≠ r.locationId) →
      (createBooking s r).1 = Except.error BookingError.NoAvailability) ∧
    ((createBooking s r).1 = Except.error BookingError.LocationNotFound →
      getParkingLocationById s r.locationId = none ∧
      ∃ sp, sp ∈ getAvailableParkingSpots s r.locationId r.startTime r.endTime) := by
  constructor
  · intro h
    have hav : getAvailableParkingSpots s r.locationId r.startTime r.endTime = [] := by
      cases hl : getAvailableParkingSpots s r.locationId r.startTime r.endTime with
      | nil => rfl
      | cons a t =>
        have hmem :=
          (mem_getAvailableParkingSpots_iff s r.locationId r.startTime r.endTime a).1
            (hl ▸ List.mem_cons_self a t)
        exact absurd hmem.2.1 (h a hmem.1)
    unfold createBooking createCheck
    rw [hav]
  · intro herr
    unfold createBooking createCheck at herr
    cases hl : getAvailableParkingSpots s r.locationId r.startTime r.endTime with
    | nil => rw [hl] at herr; exact absurd herr (by simp)
    | cons a t =>
      rw [hl] at herr
      cases hlo : getParkingLocationById s r.locationId with
      | none => exact ⟨rfl, a, hl ▸ List.mem_cons_self a t⟩
      | some loc =>
        rw [hlo] at herr
        dsimp only at herr
        unfold createCommit at herr
        split at herr <;> exact absurd herr (by simp)

/-- Request against a locationId (42) for which the empty store has neither
spots nor a location record. -/
def c10req : BookingRequest :=
  { userId := 7, vehicleId := 1, locationId := 42,
    startTime := 0, endTime := 3600000, bookingCode := "PARK-C10000" }

/-- Witness for C10: on the empty store (no spots, no location record for
id 42) the POST handler answers NoAvailability, not LocationNotFound. -/
theorem c10_error_precedence_witness :
    (∀ sp ∈ emptyStore.parkingSpots, sp.locationId ≠ c10req.locationId) ∧
    (createBooking emptyStore c10req).1 = Except.error BookingError.NoAvailability :=
  ⟨by decide, (c10_error_precedence emptyStore c10req).1 (by decide)⟩

/-- First racing request: user 7, interval [0, 3600000). -/
def c3req1 : BookingRequest :=
  { userId := 7, vehicleId := 1, locationId := 1,
    startTime := 0, endTime := 3600000, bookingCode := "PARK-R1R1R1" }

/-- Second racing request: user 8, interval [1800000, 5400000), which
strictly overlaps the first. -/
def c3req2 : BookingRequest :=
  { userId := 8, vehicleId := 2, locationId := 1,
    startTime := 1800000, endTime := 5400000, bookingCode := "PARK-R2R2R2" }

/-- C3 (evaluation of the race): the POST handler is a check-then-act
sequence (`createCheck` reads, `createCommit` writes) with no mutual
exclusion. Under the interleaving check1, check2, commit1, commit2 — both
reads against the initial one-spot store — both checks select the same
spot, both commits succeed, and the final store violates the
no-double-booking invariant: two confirmed bookings for spot 1 with
strictly overlapping intervals. The claim (exactly one succeeds, the other
gets NoAvailability, in every interleaving) fails on this interleaving. -/
theorem c3_race_interleaving :
    createCheck seedStore c3req1 = Except.ok (seedSpot, seedLoc) ∧
    createCheck seedStore c3req2 = Except.ok (seedSpot, seedLoc) ∧
    (createCommit seedStore c3req1 seedSpot seedLoc).1.isOk = true ∧
    (createCommit (createCommit seedStore c3req1 seedSpot seedLoc).2
      c3req2 seedSpot seedLoc).1.isOk = true ∧
    ¬ NoDoubleBooking (createCommit (createCommit seedStore c3req1 seedSpot seedLoc).2
      c3req2 seedSpot seedLoc).2 := by decide

/-- Zero-length request: endTime equals startTime. -/
def c4req : BookingRequest :=
  { userId := 7, vehicleId := 1, locationId := 1,
    startTime := 3600000, endTime := 3600000, bookingCode := "PARK-C4C4C4" }

/-- C4 (evaluation): the POST handler contains no interval validation and
no InvalidInterval error exists anywhere in the code. A request with
endTime = startTime is accepted: the resolver is consulted, a confirmed
zero-duration booking is persisted, and the spot flag is flipped to false —
where the claim requires an InvalidInterval failure before the resolver
with no booking created and no flag change. -/
theorem c4_zero_length_interval_accepted :
    (createBooking seedStore c4req).1.isOk = true ∧
    (createBooking seedStore c4req).2.parkingBookings.map
      (fun b => (b.id, b.spotId, b.status, b.startTime, b.endTime)) =
      [(1, 1, "confirmed", 3600000, 3600000)] ∧
    (createBooking seedStore c4req).2.parkingSpots =
      [{ id := 1, locationId := 1, isAvailable := some false }] := by decide

/-- C5: whenever the POST handler succeeds, the returned booking has status
`confirmed`, its totalAmount is
`ceil((endTime - startTime) in hours) * hourlyRate + 1.5` for the hourly
rate of the looked-up location, and in the resulting store every spot with
the booked spot id has its cached flag set to `false`. -/
theorem c5_success_postcondition (s : Store) (r : BookingRequest)
    (b : ParkingBooking) (h : (createBooking s r).1 = Except.ok b) :
    b.status = "confirmed" ∧
    (∃ location, getParkingLocationById s r.locationId = some location ∧
      b.totalAmount =
        (hoursCeil r.startTime r.endTime : Rat) * location.hourlyRate + 1.5) ∧
    (∀ sp ∈ (createBooking s r).2.parkingSpots,
      sp.id = b.spotId → sp.isAvailable = some false) := by
  unfold createBooking at h ⊢
  cases hc : createCheck s r with
  | error e => rw [hc] at h; exact absurd h (by simp)
  | ok pl =>
    obtain ⟨spot, location⟩ := pl
    rw [hc] at h
    dsimp only at h ⊢
    obtain ⟨⟨t, ht⟩, hloc⟩ := createCheck_ok s r spot location hc
    have hmem : spot ∈ getAvailableParkingSpots s r.locationId r.startTime r.endTime := by
      rw [ht]; exact List.mem_cons_self _ _
    have hspmem : spot ∈ s.parkingSpots :=
      ((mem_getAvailableParkingSpots_iff s r.locationId r.startTime r.endTime spot).1
        hmem).1
    rw [createCommit_eq s r spot location hspmem] at h ⊢
    dsimp only at h ⊢
    simp only [Except.ok.injEq] at h
    subst h
    refine ⟨rfl, ⟨location, hloc, rfl⟩, ?_⟩
    intro sp hsp hid
    obtain ⟨sp0, hsp0, rfl⟩ := List.mem_map.1 hsp
    rw [setFlag_id] at hid
    simp only [mkBooking] at hid
    have hbeq : (sp0.id == spot.id) = true := beq_iff_eq.2 hid
    unfold setFlag
    rw [if_pos hbeq]

/-- The 14:00 to 17:00 booking of concrete scenario 1 (times as
milliseconds from midnight). -/
def c5req1 : BookingRequest :=
  { userId := 7, vehicleId := 1, locationId := 1,
    startTime := 50400000, endTime := 61200000, bookingCode := "PARK-S1S1S1" }

/-- The follow-up 15:00 to 16:00 request of concrete scenario 1. -/
def c5req2 : BookingRequest :=
  { userId := 7, vehicleId := 1, locationId := 1,
    startTime := 54000000, endTime := 57600000, bookingCode := "PARK-S2S2S2" }

/-- Witness for C5 on concrete scenario 1: booking 14:00 to 17:00 at rate 5
succeeds with status `confirmed` and totalAmount `3 * 5 + 1.5 = 16.5`, the
spot flag is flipped to false, and the immediately following 15:00 to 16:00
request at the same location fails with NoAvailability. -/
theorem c5_success_postcondition_witness :
    (createBooking seedStore c5req1).1 =
      Except.ok (mkBooking seedStore c5req1 seedSpot seedLoc) ∧
    (mkBooking seedStore c5req1 seedSpot seedLoc).status = "confirmed" ∧
    (mkBooking seedStore c5req1 seedSpot seedLoc).totalAmount = 16.5 ∧
    (∀ sp ∈ (createBooking seedStore c5req1).2.parkingSpots,
      sp.id = (mkBooking seedStore c5req1 seedSpot seedLoc).spotId →
      sp.isAvailable = some false) ∧
    (createBooking (createBooking seedStore c5req1).2 c5req2).1 =
      Except.error BookingError.NoAvailability := by
  have h : (createBooking seedStore c5req1).1 =
      Except.ok (mkBooking seedStore c5req1 seedSpot seedLoc) := rfl
  obtain ⟨hst, ⟨location, hloc, hamt⟩, hflag⟩ :=
    c5_success_postcondition seedStore c5req1 _ h
  have hlocval : location = seedLoc := by
    have : getParkingLocationById seedStore c5req1.locationId = some seedLoc := rfl
    rw [this] at hloc
    exact (Option.some.inj hloc).symm
  refine ⟨h, hst, ?_, hflag, by decide⟩
  rw [hamt, hlocval]
  rw [show hoursCeil c5req1.startTime c5req1.endTime = 3 from by decide]
  show (3 : Int) * (5 : Rat) + 1.5 = 16.5
  norm_num

/-- Evaluation of the DELETE handler on a successful authorization check
with an existing referenced spot: booking set canceled, spot flag set true. -/
theorem cancel_success_eq (s : Store) (bid uid : Nat) (b : ParkingBooking)
    (hb : getParkingBookingById s bid = some b) (huid : b.userId = uid)
    (hsp : ∃ sp ∈ s.parkingSpots, sp.id = b.spotId) :
    cancelBooking s bid uid =
      (Except.ok (),
        { s with
          parkingBookings := s.parkingBookings.map (setCanceled bid)
          parkingSpots := s.parkingSpots.map (setFlag b.spotId true) }) := by
  unfold cancelBooking
  rw [hb]
  dsimp only
  rw [if_neg (fun hne => hne huid)]
  rw [updateSpot_some
    { s with parkingBookings := s.parkingBookings.map (setCanceled bid) }
    b.spotId true hsp]

/-- C7: the DELETE handler fails NotFound exactly when the booking id is
absent; fails Forbidden exactly when the booking exists and is owned by a
different user; and otherwise (owner matches, referenced spot present)
succeeds, setting that booking status to `canceled` in place and the
referenced spot flag to `true` unconditionally, leaving every other
booking, every other spot, the locations and the counters unchanged (the
two `List.map` writes touch only the matching records). -/
theorem c7_cancel_semantics (s : Store) (bid uid : Nat) :
    ((cancelBooking s bid uid).1 = Except.error BookingError.NotFound ↔
      getParkingBookingById s bid = none) ∧
    ((cancelBooking s bid uid).1 = Except.error BookingError.Forbidden ↔
      ∃ b, getParkingBookingById s bid = some b ∧ b.userId ≠ uid) ∧
    (∀ b, getParkingBookingById s bid = some b → b.userId = uid →
      (∃ sp ∈ s.parkingSpots, sp.id = b.spotId) →
      (cancelBooking s bid uid).1 = Except.ok () ∧
      (cancelBooking s bid uid).2 =
        { s with
          parkingBookings := s.parkingBookings.map (setCanceled bid)
          parkingSpots := s.parkingSpots.map (setFlag b.spotId true) }) := by
  refine ⟨?_, ?_, ?_⟩
  · cases hg : getParkingBookingById s bid with
    | none =>
      unfold cancelBooking
      rw [hg]
      exact iff_of_true rfl rfl
    | some booking =>
      apply iff_of_false ?_ (by simp)
      unfold cancelBooking
      rw [hg]
      dsimp only
      split
      · simp
      · cases hupd : updateParkingSpotAvailability
            { s with parkingBookings := s.parkingBookings.map (setCanceled bid) }
            booking.spotId true with
        | none => simp
        | some s2 => simp
  · cases hg : getParkingBookingById s bid with
    | none =>
      apply iff_of_false (by unfold cancelBooking; rw [hg]; simp)
      rintro ⟨b, hb, -⟩
      cases hb
    | some booking =>
      unfold cancelBooking
      rw [hg]
      dsimp only
      by_cases hne : booking.userId ≠ uid
      · rw [if_pos hne]
        exact iff_of_true rfl ⟨booking, rfl, hne⟩
      · rw [if_neg hne]
        apply iff_of_false ?_ ?_
        · cases hupd : updateParkingSpotAvailability
              { s with parkingBookings := s.parkingBookings.map (setCanceled bid) }
              booking.spotId true with
          | none => simp
          | some s2 => simp
        · rintro ⟨b, hb, hbne⟩
          cases hb
          exact hne hbne
  · intro b hb huid hsp
    rw [cancel_success_eq s bid uid b hb huid hsp]
    exact ⟨rfl, rfl⟩

/-- The already-canceled booking of the re-cancellation scenario: user 7
held spot 1 from 0 to 3600000 and canceled. -/
def c8booking1 : ParkingBooking :=
  { id := 1, userId := 7, vehicleId := 1, spotId := 1, locationId := 1,
    startTime := 0, endTime := 3600000, status := "canceled",
    bookingCode := "PARK-C8AAAA", totalAmount := 1.5 }

/-- The later confirmed booking of user 8 that re-claimed spot 1 (its flag
is `false` again). -/
def c8booking2 : ParkingBooking :=
  { id := 2, userId := 8, vehicleId := 2, spotId := 1, locationId := 1,
    startTime := 7200000, endTime := 10800000, status := "confirmed",
    bookingCode := "PARK-C8BBBB", totalAmount := 1.5 }

/-- Store for the C8 counterexample: spot 1 is held (flag `false`) by the
confirmed booking 2, while booking 1 on the same spot is already canceled. -/
def c8store : Store :=
  { parkingLocations := []
    parkingSpots := [{ id := 1, locationId := 1, isAvailable := some false }]
    parkingBookings := [c8booking1, c8booking2]
    currentLocationIds := 1
    currentSpotIds := 2
    currentBookingIds := 3 }

/-- C8 (counterexample): re-cancelling the already-canceled booking 1
neither fails with NotFound (the booking still exists) nor leaves the store
unchanged: the DELETE handler succeeds and flips the spot flag from `false`
back to `true`, re-releasing a spot that the confirmed booking 2 holds. -/
theorem c8_counterexample :
    (cancelBooking c8store 1 7).1 = Except.ok () ∧
    c8store.parkingSpots = [{ id := 1, locationId := 1, isAvailable := some false }] ∧
    (cancelBooking c8store 1 7).2.parkingSpots =
      [{ id := 1, locationId := 1, isAvailable := some true }] := by decide

/-- C8 (amended): a second cancel by the owner of an already-canceled
booking succeeds again: it leaves the booking table unchanged (the status
write re-writes `canceled`) but unconditionally re-sets the referenced spot
flag to `true`, even when the spot was re-booked in the meantime. -/
theorem c8_recancel_releases_spot (s : Store) (bid uid : Nat)
    (b : ParkingBooking) (hb : getParkingBookingById s bid = some b)
    (huid : b.userId = uid) (hst : b.status = "canceled")
    (hnodup : (s.parkingBookings.map ParkingBooking.id).Nodup)
    (hsp : ∃ sp ∈ s.parkingSpots, sp.id = b.spotId) :
    (cancelBooking s bid uid).1 = Except.ok () ∧
    (cancelBooking s bid uid).2.parkingBookings = s.parkingBookings ∧
    (cancelBooking s bid uid).2.parkingSpots =
      s.parkingSpots.map (setFlag b.spotId true) := by
  rw [cancel_success_eq s bid uid b hb huid hsp]
  refine ⟨rfl, ?_, rfl⟩
  unfold getParkingBookingById at hb
  have hbmem : b ∈ s.parkingBookings := List.mem_of_find?_eq_some hb
  have hbid := List.find?_some hb
  dsimp only
  show s.parkingBookings.map (setCanceled bid) = s.parkingBookings
  conv_rhs => rw [← List.map_id s.parkingBookings]
  apply List.map_congr_left
  intro x hx
  unfold setCanceled
  split
  · rename_i hxid
    have hxb : x = b :=
      List.inj_on_of_nodup_map hnodup hx hbmem
        (by rw [beq_iff_eq.1 hxid, beq_iff_eq.1 hbid])
    subst hxb
    have hgen : ∀ y : ParkingBooking, y.status = "canceled" →
        ({ y with status := "canceled" } : ParkingBooking) = y := by
      intro y hy
      cases y
      simp only at hy
      simp [hy]
    exact hgen x hst
  · rfl

/-- Witness for the amended C8 theorem on the concrete re-cancellation
store: the spot flag goes back to `true` while the bookings are unchanged. -/
theorem c8_recancel_releases_spot_witness :
    (cancelBooking c8store 1 7).1 = Except.ok () ∧
    (cancelBooking c8store 1 7).2.parkingBookings = c8store.parkingBookings ∧
    (cancelBooking c8store 1 7).2.parkingSpots =
      c8store.parkingSpots.map (setFlag c8booking1.spotId true) :=
  c8_recancel_releases_spot c8store 1 7 c8booking1 rfl rfl rfl
    (by decide) (by decide)

/-- Witness for C7: user 8 cancels their confirmed booking 2; the handler
succeeds, cancels the booking in place and re-sets the spot flag. -/
theorem c7_cancel_semantics_witness :
    (cancelBooking c8store 2 8).1 = Except.ok () ∧
    (cancelBooking c8store 2 8).2 =
      { c8store with
        parkingBookings := c8store.parkingBookings.map (setCanceled 2)
        parkingSpots := c8store.parkingSpots.map (setFlag c8booking2.spotId true) } :=
  (c7_cancel_semantics c8store 2 8).2.2 c8booking2 rfl rfl (by decide)
